/-
Verification of the nebula-gallexy-control core: the gesture-to-parameter
pipeline (GestureController.predictWebcam), the particle field simulation
(Particle constructor / Particle.update, the 800-particle pool of
GalaxyCanvas) and the analysis client (generateCosmicAnalysis).

Numbers are modelled as real numbers; JavaScript Math.cos / Math.sin /
Math.sqrt become Real.cos / Real.sin / Real.sqrt, and every call to
Math.random is made an explicit parameter (a value in [0, 1)).  In this
real-number semantics, the finiteness guarantee of the spec is expressed
as an explicit uniform bound on the particle positions.
-/
import Mathlib

set_option maxHeartbeats 1000000

noncomputable section

namespace NebulaGalaxy

/-! ## Data model (types.ts) -/

/-- SimulationParams from types.ts: chaos and scale in [0,1] plus the
hand-presence flag. -/
structure SimulationParams where
  chaos : ℝ
  scale : ℝ
  active : Bool

/-! ## Particle (GalaxyCanvas, part_001 lines 8-76) -/

/-- The Particle class fields.  color holds the rgba prefix string chosen by
the constructor. -/
structure Particle where
  x : ℝ
  y : ℝ
  z : ℝ
  vx : ℝ
  vy : ℝ
  size : ℝ
  color : String
  angle : ℝ
  radius : ℝ
  angularSpeed : ℝ

/-- The cosmic color palette of the constructor. -/
def cosmicColors : List String :=
  ["rgba(255, 255, 255, ", "rgba(100, 200, 255, ",
   "rgba(200, 100, 255, ", "rgba(255, 150, 50, "]

/-- One value in [0,1) for every Math.random() call of the Particle
constructor, in source order. -/
structure Rand where
  z : ℝ
  angle : ℝ
  radius : ℝ
  speed : ℝ
  dir : ℝ
  size : ℝ
  color : ℝ

/-- Particle constructor (part_001 lines 20-39): position starts at the
canvas center, angle and radius are random draws, angularSpeed is a small
signed magnitude. -/
def Particle.init (width height : ℝ) (r : Rand) : Particle :=
  { x := width / 2
    y := height / 2
    z := r.z * 2
    vx := 0
    vy := 0
    angle := r.angle * Real.pi * 2
    radius := r.radius * (min width height / 3)
    angularSpeed := (0.02 + r.speed * 0.05) * (if r.dir < 0.5 then 1 else -1)
    size := r.size * 2 + 0.5
    color := cosmicColors.getD (Int.toNat ⌊r.color * 4⌋) "" }

/-- The targetRadius computed at part_001 line 48:
radius * (0.1 + scale * 1.5). -/
def targetRadiusOf (radius scale : ℝ) : ℝ := radius * (0.1 + scale * 1.5)

/-- The jitter amplitude computed at part_001 line 51: chaos * 5. -/
def jitterMagnitude (chaos : ℝ) : ℝ := chaos * 5

/-- Particle.update (part_001 lines 41-67).  rx and ry are the two
Math.random() draws of the jitter step, each in [0,1). -/
def Particle.update (p : Particle) (width height chaos scale rx ry : ℝ) :
    Particle :=
  let cx := width / 2
  let cy := height / 2
  let targetRadius := targetRadiusOf p.radius scale
  let jitter := jitterMagnitude chaos
  let angle := p.angle + p.angularSpeed * (1 + chaos * 2)
  let targetX := cx + Real.cos angle * targetRadius
  let targetY := cy + Real.sin angle * targetRadius
  let x := p.x + (targetX - p.x) * 0.1
  let y := p.y + (targetY - p.y) * 0.1
  let x := x + (rx - 0.5) * jitter
  let y := y + (ry - 0.5) * jitter
  { p with x := x, y := y, angle := angle }

/-- Iterated ticks of one particle: rs n gives the two random jitter draws
of tick n. -/
def Particle.ticks (p : Particle) (width height chaos scale : ℝ)
    (rs : ℕ → ℝ × ℝ) : ℕ → Particle
  | 0 => p
  | n + 1 =>
      (p.ticks width height chaos scale rs n).update width height chaos scale
        (rs n).1 (rs n).2

/-- The 800-particle pool created by GalaxyCanvas (part_001 lines 84-91). -/
def galaxyParticles (width height : ℝ) (rands : ℕ → Rand) : List Particle :=
  (List.range 800).map fun i => Particle.init width height (rands i)

/-! ## Gesture interpretation (GestureController.predictWebcam,
part_001 lines 214-267) -/

/-- A 2D landmark in normalized coordinates. -/
structure Landmark where
  x : ℝ
  y : ℝ

/-- One detected hand: the handedness category name reported by the
detector ("Left" or "Right") together with the only two landmarks the code
consumes, landmarks[4] (thumb tip) and landmarks[8] (index tip). -/
structure HandObservation where
  handedness : String
  thumb : Landmark
  indexFinger : Landmark

/-- Euclidean thumb-to-index distance (part_001 lines 238-241). -/
def handDistance (o : HandObservation) : ℝ :=
  Real.sqrt ((o.thumb.x - o.indexFinger.x) ^ 2 +
    (o.thumb.y - o.indexFinger.y) ^ 2)

/-- Clamp of distance * 5 into [0,1] (part_001 line 245). -/
def normalizedValue (distance : ℝ) : ℝ := min (max (distance * 5) 0) 1

/-- The openness value the loop computes for one observation. -/
def opennessOf (o : HandObservation) : ℝ := normalizedValue (handDistance o)

/-- Body of the forEach loop (part_001 lines 230-260): a Left hand writes
chaos, anything else writes scale.  The chaos variable is first assigned
1 - normalizedValue and immediately overwritten with normalizedValue,
exactly as in the source. -/
def processHand (acc : ℝ × ℝ) (o : HandObservation) : ℝ × ℝ :=
  let nv := opennessOf o
  if o.handedness = "Left" then
    let c := 1 - nv
    let c := nv
    (c, acc.2)
  else
    (acc.1, nv)

/-- One frame of predictWebcam (part_001 lines 222-263): chaos starts at 0,
scale at 0.5, handsDetected at false; when at least one hand is detected the
loop runs over all observations and active is true. -/
def predictWebcamFrame (observations : List HandObservation) :
    SimulationParams :=
  let chaos : ℝ := 0
  let scale : ℝ := 0.5
  if observations.length > 0 then
    let cs := observations.foldl processHand (chaos, scale)
    { chaos := cs.1, scale := cs.2, active := true }
  else
    { chaos := chaos, scale := scale, active := false }

/-! ## Analysis client (src/services/geminiService.ts) -/

/-- The response object of the external generateContent call; text is none
when the field is absent. -/
structure GenerateContentResponse where
  text : Option String

/-- JavaScript a || d on an optional string: the default is used when the
value is absent or empty. -/
def orDefault (s : Option String) (d : String) : String :=
  match s with
  | some t => if t = "" then d else t
  | none => d

/-- generateCosmicAnalysis (geminiService.ts lines 5-39).  The outcome of
the awaited external model call is passed in: an error models a thrown
exception, caught by the try/catch; otherwise the guarded response text is
returned. -/
def generateCosmicAnalysis (chaos scale : ℝ) (userQuery : Option String)
    (call : Except String GenerateContentResponse) : String :=
  match call with
  | .error _ => "ANALYSIS FAILED: Cosmic interference detected."
  | .ok response =>
      orDefault response.text "Connection to Deep Space Network lost..."

/-! ## Helper lemmas -/

/-- update keeps every field other than x, y and angle. -/
theorem update_fields_eq (p : Particle) (w h chaos scale rx ry : ℝ) :
    (p.update w h chaos scale rx ry).radius = p.radius ∧
    (p.update w h chaos scale rx ry).angularSpeed = p.angularSpeed ∧
    (p.update w h chaos scale rx ry).size = p.size ∧
    (p.update w h chaos scale rx ry).color = p.color ∧
    (p.update w h chaos scale rx ry).z = p.z ∧
    (p.update w h chaos scale rx ry).vx = p.vx ∧
    (p.update w h chaos scale rx ry).vy = p.vy :=
  ⟨rfl, rfl, rfl, rfl, rfl, rfl, rfl⟩

/-- Iterated ticks keep the orbital radius. -/
theorem ticks_radius (p : Particle) (w h chaos scale : ℝ) (rs : ℕ → ℝ × ℝ) :
    ∀ n, (p.ticks w h chaos scale rs n).radius = p.radius := by
  intro n
  induction n with
  | zero => rfl
  | succ n ih => simpa [Particle.ticks] using ih

/-! ## Theorems for the claims -/

/-- C5: one update advances the angle by exactly
angularSpeed * (1 + chaos * 2); at chaos = 0 the delta is angularSpeed and
at chaos = 1 it is 3 * angularSpeed. -/
theorem C5_theorem (p : Particle) (w h chaos scale rx ry : ℝ) :
    (p.update w h chaos scale rx ry).angle - p.angle
      = p.angularSpeed * (1 + chaos * 2) ∧
    (p.update w h 0 scale rx ry).angle - p.angle = p.angularSpeed ∧
    (p.update w h 1 scale rx ry).angle - p.angle = 3 * p.angularSpeed := by
  refine ⟨?_, ?_, ?_⟩ <;> · simp only [Particle.update]; ring

/-- C9: an update leaves radius, angularSpeed, size and color (and the
untouched z, vx, vy fields) unchanged; only x, y and angle are written. -/
theorem C9_theorem (p : Particle) (w h chaos scale rx ry : ℝ) :
    (p.update w h chaos scale rx ry).radius = p.radius ∧
    (p.update w h chaos scale rx ry).angularSpeed = p.angularSpeed ∧
    (p.update w h chaos scale rx ry).size = p.size ∧
    (p.update w h chaos scale rx ry).color = p.color ∧
    (p.update w h chaos scale rx ry).z = p.z ∧
    (p.update w h chaos scale rx ry).vx = p.vx ∧
    (p.update w h chaos scale rx ry).vy = p.vy :=
  ⟨rfl, rfl, rfl, rfl, rfl, rfl, rfl⟩

/-- C10: the pool holds 800 particles and every constructed particle starts
exactly at the canvas center (width / 2, height / 2), whatever its random
draws (hence whatever its orbitalRadius). -/
theorem C10_theorem (w h : ℝ) (rands : ℕ → Rand) :
    (galaxyParticles w h rands).length = 800 ∧
    ∀ p ∈ galaxyParticles w h rands, p.x = w / 2 ∧ p.y = h / 2 := by
  constructor
  · simp [galaxyParticles]
  · intro p hp
    simp only [galaxyParticles, List.mem_map] at hp
    obtain ⟨i, -, rfl⟩ := hp
    exact ⟨rfl, rfl⟩

/-- Witness for C10 at width = height = 2 and all-zero random draws. -/
theorem C10_witness :
    (galaxyParticles 2 2 (fun _ => ⟨0, 0, 0, 0, 0, 0, 0⟩)).length = 800 ∧
    (Particle.init 2 2 ⟨0, 0, 0, 0, 0, 0, 0⟩).x = 2 / 2 ∧
    (Particle.init 2 2 ⟨0, 0, 0, 0, 0, 0, 0⟩).y = 2 / 2 := by
  have h := C10_theorem 2 2 (fun _ => ⟨0, 0, 0, 0, 0, 0, 0⟩)
  refine ⟨h.1, h.2 _ ?_⟩
  exact List.mem_map.mpr ⟨0, List.mem_range.mpr (by norm_num), rfl⟩

/-- C8: generateCosmicAnalysis is a total function of the model-call
outcome (it never throws to its caller); whenever the model call fails it
returns the fixed fallback string, and on success it returns the guarded
response text. -/
theorem C8_theorem (chaos scale : ℝ) (q : Option String) :
    (∀ e, generateCosmicAnalysis chaos scale q (.error e)
        = "ANALYSIS FAILED: Cosmic interference detected.") ∧
    (∀ r, generateCosmicAnalysis chaos scale q (.ok r)
        = orDefault r.text "Connection to Deep Space Network lost...") :=
  ⟨fun _ => rfl, fun _ => rfl⟩

/-- C4: targetRadius is monotone non-decreasing in scale for a fixed
non-negative orbital radius, equals 0.1 * radius at scale 0 and
1.6 * radius at scale 1. -/
theorem C4_theorem (r : ℝ) (hr : 0 ≤ r) :
    (∀ s₁ s₂, 0 ≤ s₁ → s₁ ≤ s₂ → s₂ ≤ 1 →
      targetRadiusOf r s₁ ≤ targetRadiusOf r s₂) ∧
    targetRadiusOf r 0 = 0.1 * r ∧
    targetRadiusOf r 1 = 1.6 * r := by
  refine ⟨fun s₁ s₂ _ h12 _ => ?_, by simp [targetRadiusOf]; ring, by
    simp [targetRadiusOf]; ring⟩
  simp only [targetRadiusOf]
  nlinarith

/-- Witness for C4 at radius 2. -/
theorem C4_witness :
    (0:ℝ) ≤ 2 ∧ targetRadiusOf 2 0 = 0.1 * 2 ∧ targetRadiusOf 2 1 = 1.6 * 2 :=
  ⟨by norm_num, (C4_theorem 2 (by norm_num)).2.1, (C4_theorem 2 (by norm_num)).2.2⟩

/-- C6: the openness of an observation is min(max(d*5,0),1) of the Euclidean
thumb-to-index distance; coincident tips give openness exactly 0 and any
distance at least 0.2 gives openness exactly 1. -/
theorem C6_theorem (o : HandObservation) :
    opennessOf o = min (max (handDistance o * 5) 0) 1 ∧
    (o.thumb = o.indexFinger → opennessOf o = 0) ∧
    (0.2 ≤ handDistance o → opennessOf o = 1) := by
  refine ⟨rfl, fun hco => ?_, fun hd => ?_⟩
  · simp [opennessOf, handDistance, normalizedValue, hco]
  · have h1 : (1:ℝ) ≤ handDistance o * 5 := by linarith
    have h0 : max (handDistance o * 5) 0 = handDistance o * 5 :=
      max_eq_left (by linarith)
    simp only [opennessOf, normalizedValue, h0]
    exact min_eq_right h1

/-- Witness for C6: a coincident-tip Left observation has openness 0 and a
Right observation with thumb (0,0) and index (1,0) has openness 1. -/
theorem C6_witness :
    opennessOf ⟨"Left", ⟨0.3, 0.4⟩, ⟨0.3, 0.4⟩⟩ = 0 ∧
    opennessOf ⟨"Right", ⟨0, 0⟩, ⟨1, 0⟩⟩ = 1 := by
  constructor
  · exact (C6_theorem _).2.1 rfl
  · refine (C6_theorem _).2.2 ?_
    have h : handDistance ⟨"Right", ⟨0, 0⟩, ⟨1, 0⟩⟩
        = Real.sqrt (((0:ℝ) - 1) ^ 2 + ((0:ℝ) - 0) ^ 2) := rfl
    have h2 : ((0:ℝ) - 1) ^ 2 + ((0:ℝ) - 0) ^ 2 = 1 := by norm_num
    rw [h, h2, Real.sqrt_one]
    norm_num

/-- C1 counterexample: after a frame whose output has chaos 1 (one Left hand
with thumb (0,0) and index (1,0)), a frame with zero observations emits
chaos 0, not the previous frame's value, so chaos is reset rather than
retained. -/
theorem C1_counterexample :
    (predictWebcamFrame []).active = false ∧
    (predictWebcamFrame []).chaos
      ≠ (predictWebcamFrame [⟨"Left", ⟨0, 0⟩, ⟨1, 0⟩⟩]).chaos := by
  have h : handDistance ⟨"Left", ⟨0, 0⟩, ⟨1, 0⟩⟩
      = Real.sqrt (((0:ℝ) - 1) ^ 2 + ((0:ℝ) - 0) ^ 2) := rfl
  have h2 : ((0:ℝ) - 1) ^ 2 + ((0:ℝ) - 0) ^ 2 = 1 := by norm_num
  have hd : handDistance ⟨"Left", ⟨0, 0⟩, ⟨1, 0⟩⟩ = 1 := by
    rw [h, h2, Real.sqrt_one]
  constructor
  · rfl
  · simp [predictWebcamFrame, processHand, opennessOf, normalizedValue, hd]

/-- C1 amended: on a frame with zero hand observations the emitted signal
is the per-frame default, chaos 0, scale 0.5 and active false, regardless
of any previous output. -/
theorem C1_theorem :
    (predictWebcamFrame []).chaos = 0 ∧
    (predictWebcamFrame []).scale = 0.5 ∧
    (predictWebcamFrame []).active = false :=
  ⟨rfl, rfl, rfl⟩

/-- C2 counterexample: a frame with one Right observation at distance 1
emits scale 1; the next frame with a single Left observation emits scale
0.5 (the default), not the prior frame's scale. -/
theorem C2_counterexample :
    (predictWebcamFrame [⟨"Right", ⟨0, 0⟩, ⟨0, 1⟩⟩]).scale = 1 ∧
    (predictWebcamFrame [⟨"Left", ⟨0, 0⟩, ⟨0, 1⟩⟩]).scale = 0.5 ∧
    (predictWebcamFrame [⟨"Left", ⟨0, 0⟩, ⟨0, 1⟩⟩]).scale
      ≠ (predictWebcamFrame [⟨"Right", ⟨0, 0⟩, ⟨0, 1⟩⟩]).scale := by
  have h : Real.sqrt (((0:ℝ) - 0) ^ 2 + ((0:ℝ) - 1) ^ 2) = 1 := by
    rw [show ((0:ℝ) - 0) ^ 2 + ((0:ℝ) - 1) ^ 2 = 1 by norm_num, Real.sqrt_one]
  have hdR : handDistance ⟨"Right", ⟨0, 0⟩, ⟨0, 1⟩⟩ = 1 := h
  have hdL : handDistance ⟨"Left", ⟨0, 0⟩, ⟨0, 1⟩⟩ = 1 := h
  refine ⟨?_, ?_, ?_⟩ <;>
    simp [predictWebcamFrame, processHand, opennessOf, normalizedValue,
      hdR, hdL] <;> norm_num

/-- C2 amended: on a frame with exactly one observation, a Left hand sets
chaos to clamp(d*5, 0, 1) while scale is emitted as the default 0.5 (not
the prior frame's value); a Right hand sets scale to clamp(d*5, 0, 1)
while chaos is emitted as the default 0; active is true. -/
theorem C2_theorem (o : HandObservation) :
    (o.handedness = "Left" →
      (predictWebcamFrame [o]).chaos = min (max (handDistance o * 5) 0) 1 ∧
      (predictWebcamFrame [o]).scale = 0.5) ∧
    (o.handedness = "Right" →
      (predictWebcamFrame [o]).scale = min (max (handDistance o * 5) 0) 1 ∧
      (predictWebcamFrame [o]).chaos = 0) ∧
    (predictWebcamFrame [o]).active = true := by
  refine ⟨fun hL => ?_, fun hR => ?_, ?_⟩
  · constructor <;>
      simp [predictWebcamFrame, processHand, opennessOf, normalizedValue, hL]
  · constructor <;>
      simp [predictWebcamFrame, processHand, opennessOf, normalizedValue, hR]
  · simp [predictWebcamFrame]

/-- Witness for C2: a single Left observation with thumb (0,0) and index
(0.1, 0). -/
theorem C2_witness :
    (predictWebcamFrame [⟨"Left", ⟨0, 0⟩, ⟨0.1, 0⟩⟩]).chaos
      = min (max (handDistance ⟨"Left", ⟨0, 0⟩, ⟨0.1, 0⟩⟩ * 5) 0) 1 ∧
    (predictWebcamFrame [⟨"Left", ⟨0, 0⟩, ⟨0.1, 0⟩⟩]).scale = 0.5 :=
  ( C2_theorem ⟨"Left", ⟨0, 0⟩, ⟨0.1, 0⟩⟩ ).1 rfl

/-! ## Position bound (C3) -/

/-- Per-tick drift bound for one axis with center coordinate c and orbital
radius r: one tick moves the coordinate to 0.9 of itself plus at most this
amount. -/
def driftBound (c r : ℝ) : ℝ := 0.1 * (|c| + 1.6 * |r|) + 2.5

/-- Arithmetic core of the per-tick bound: one elastic step toward a target
on a circle of radius at most 1.6 * |r| around center cx, plus jitter of
magnitude at most 2.5. -/
theorem abs_step_le (A cx c r q j : ℝ) (hc : |c| ≤ 1) (hq0 : 0 ≤ q)
    (hq : q ≤ 1.6) (hj : |j| ≤ 2.5) :
    |A + (cx + c * (r * q) - A) * 0.1 + j|
      ≤ 0.9 * |A| + driftBound cx r := by
  have hsplit : A + (cx + c * (r * q) - A) * 0.1 + j
      = 0.9 * A + (0.1 * cx + (0.1 * (c * (r * q)) + j)) := by ring
  rw [hsplit]
  have h1 : |0.9 * A + (0.1 * cx + (0.1 * (c * (r * q)) + j))|
      ≤ |0.9 * A| + |0.1 * cx + (0.1 * (c * (r * q)) + j)| := abs_add _ _
  have h2 : |0.1 * cx + (0.1 * (c * (r * q)) + j)|
      ≤ |0.1 * cx| + |0.1 * (c * (r * q)) + j| := abs_add _ _
  have h3 : |0.1 * (c * (r * q)) + j| ≤ |0.1 * (c * (r * q))| + |j| :=
    abs_add _ _
  have e1 : |0.9 * A| = 0.9 * |A| := by
    rw [abs_mul]; norm_num
  have e2 : |0.1 * cx| = 0.1 * |cx| := by
    rw [abs_mul]; norm_num
  have e3 : |0.1 * (c * (r * q))| ≤ 0.1 * (1.6 * |r|) := by
    rw [abs_mul, abs_mul, abs_mul]
    have hq' : |q| ≤ 1.6 := by rw [abs_of_nonneg hq0]; exact hq
    have hr0 : (0:ℝ) ≤ |r| := abs_nonneg r
    have hkey : |c| * (|r| * |q|) ≤ 1 * (|r| * 1.6) :=
      mul_le_mul hc (mul_le_mul_of_nonneg_left hq' hr0)
        (by positivity) (by norm_num)
    rw [show |(0.1:ℝ)| = 0.1 by norm_num]
    linarith
  unfold driftBound
  linarith

/-- Jitter term bound: with rx in [0,1] and chaos in [0,1] the jitter added
to one axis has magnitude at most 2.5. -/
theorem abs_jitter_le (rx chaos : ℝ) (hrx0 : 0 ≤ rx) (hrx1 : rx ≤ 1)
    (hc0 : 0 ≤ chaos) (hc1 : chaos ≤ 1) :
    |(rx - 0.5) * (chaos * 5)| ≤ 2.5 := by
  rw [abs_mul]
  have h1 : |rx - 0.5| ≤ 0.5 := abs_le.mpr ⟨by linarith, by linarith⟩
  have h2 : |chaos * 5| ≤ 5 := by
    rw [abs_mul, abs_of_nonneg hc0, show |(5:ℝ)| = 5 by norm_num]
    linarith
  have := mul_le_mul h1 h2 (abs_nonneg _) (by norm_num)
  linarith

/-- One update contracts the x coordinate: the new |x| is at most
0.9 * |x| plus the drift bound. -/
theorem update_x_abs_le (p : Particle) (w h chaos scale rx ry : ℝ)
    (hc0 : 0 ≤ chaos) (hc1 : chaos ≤ 1) (hs0 : 0 ≤ scale) (hs1 : scale ≤ 1)
    (hrx0 : 0 ≤ rx) (hrx1 : rx ≤ 1) :
    |(p.update w h chaos scale rx ry).x|
      ≤ 0.9 * |p.x| + driftBound (w / 2) p.radius := by
  have hx : (p.update w h chaos scale rx ry).x
      = p.x + (w / 2
          + Real.cos (p.angle + p.angularSpeed * (1 + chaos * 2))
            * (p.radius * (0.1 + scale * 1.5)) - p.x) * 0.1
        + (rx - 0.5) * (chaos * 5) := rfl
  rw [hx]
  exact abs_step_le p.x (w / 2)
    (Real.cos (p.angle + p.angularSpeed * (1 + chaos * 2))) p.radius
    (0.1 + scale * 1.5) ((rx - 0.5) * (chaos * 5))
    (Real.abs_cos_le_one _) (by linarith) (by linarith)
    (abs_jitter_le rx chaos hrx0 hrx1 hc0 hc1)

/-- One update contracts the y coordinate likewise. -/
theorem update_y_abs_le (p : Particle) (w h chaos scale rx ry : ℝ)
    (hc0 : 0 ≤ chaos) (hc1 : chaos ≤ 1) (hs0 : 0 ≤ scale) (hs1 : scale ≤ 1)
    (hry0 : 0 ≤ ry) (hry1 : ry ≤ 1) :
    |(p.update w h chaos scale rx ry).y|
      ≤ 0.9 * |p.y| + driftBound (h / 2) p.radius := by
  have hy : (p.update w h chaos scale rx ry).y
      = p.y + (h / 2
          + Real.sin (p.angle + p.angularSpeed * (1 + chaos * 2))
            * (p.radius * (0.1 + scale * 1.5)) - p.y) * 0.1
        + (ry - 0.5) * (chaos * 5) := rfl
  rw [hy]
  exact abs_step_le p.y (h / 2)
    (Real.sin (p.angle + p.angularSpeed * (1 + chaos * 2))) p.radius
    (0.1 + scale * 1.5) ((ry - 0.5) * (chaos * 5))
    (Real.abs_sin_le_one _) (by linarith) (by linarith)
    (abs_jitter_le ry chaos hry0 hry1 hc0 hc1)

/-- C3: for chaos and scale in [0,1] and every sequence of random jitter
draws in [0,1], after any number of ticks the particle's position
components stay within the explicit bound
max |start| (10 * driftBound center radius): in the real-number semantics
both components always remain finite. -/
theorem C3_theorem (p : Particle) (w h chaos scale : ℝ) (rs : ℕ → ℝ × ℝ)
    (hc0 : 0 ≤ chaos) (hc1 : chaos ≤ 1) (hs0 : 0 ≤ scale) (hs1 : scale ≤ 1)
    (hr : ∀ n, 0 ≤ (rs n).1 ∧ (rs n).1 ≤ 1 ∧ 0 ≤ (rs n).2 ∧ (rs n).2 ≤ 1) :
    ∀ n, |(p.ticks w h chaos scale rs n).x|
        ≤ max |p.x| (10 * driftBound (w / 2) p.radius) ∧
      |(p.ticks w h chaos scale rs n).y|
        ≤ max |p.y| (10 * driftBound (h / 2) p.radius) := by
  intro n
  induction n with
  | zero => exact ⟨le_max_left _ _, le_max_left _ _⟩
  | succ n ih =>
      obtain ⟨ihx, ihy⟩ := ih
      have hrad : (p.ticks w h chaos scale rs n).radius = p.radius :=
        ticks_radius p w h chaos scale rs n
      have hstep : p.ticks w h chaos scale rs (n + 1)
          = (p.ticks w h chaos scale rs n).update w h chaos scale
              (rs n).1 (rs n).2 := rfl
      rw [hstep]
      obtain ⟨hr1, hr2, hr3, hr4⟩ := hr n
      constructor
      · have hx := update_x_abs_le (p.ticks w h chaos scale rs n) w h chaos
          scale (rs n).1 (rs n).2 hc0 hc1 hs0 hs1 hr1 hr2
        rw [hrad] at hx
        have hM := le_max_right |p.x| (10 * driftBound (w / 2) p.radius)
        calc |((p.ticks w h chaos scale rs n).update w h chaos scale
                (rs n).1 (rs n).2).x|
            ≤ 0.9 * |(p.ticks w h chaos scale rs n).x|
              + driftBound (w / 2) p.radius := hx
          _ ≤ max |p.x| (10 * driftBound (w / 2) p.radius) := by
              nlinarith [abs_nonneg (p.ticks w h chaos scale rs n).x]
      · have hy := update_y_abs_le (p.ticks w h chaos scale rs n) w h chaos
          scale (rs n).1 (rs n).2 hc0 hc1 hs0 hs1 hr3 hr4
        rw [hrad] at hy
        have hM := le_max_right |p.y| (10 * driftBound (h / 2) p.radius)
        calc |((p.ticks w h chaos scale rs n).update w h chaos scale
                (rs n).1 (rs n).2).y|
            ≤ 0.9 * |(p.ticks w h chaos scale rs n).y|
              + driftBound (h / 2) p.radius := hy
          _ ≤ max |p.y| (10 * driftBound (h / 2) p.radius) := by
              nlinarith [abs_nonneg (p.ticks w h chaos scale rs n).y]

/-- Witness for C3: one tick from (3,4) with chaos = 0, scale = 0, zero
jitter draws, radius 1, canvas 2 by 2. -/
theorem C3_witness :
    |(Particle.ticks ⟨3, 4, 0, 0, 0, 1, "", 0, 1, 0⟩ 2 2 0 0
        (fun _ => (0, 0)) 1).x|
      ≤ max |(3:ℝ)| (10 * driftBound (2 / 2) 1) ∧
    |(Particle.ticks ⟨3, 4, 0, 0, 0, 1, "", 0, 1, 0⟩ 2 2 0 0
        (fun _ => (0, 0)) 1).y|
      ≤ max |(4:ℝ)| (10 * driftBound (2 / 2) 1) :=
  C3_theorem ⟨3, 4, 0, 0, 0, 1, "", 0, 1, 0⟩ 2 2 0 0 (fun _ => (0, 0))
    (by norm_num) (by norm_num) (by norm_num) (by norm_num)
    (fun _ => ⟨by norm_num, by norm_num, by norm_num, by norm_num⟩) 1

/-- C7: with chaos = 0 and scale = 1 the jitter amplitude is exactly 0, the
per-tick target point lies on the circle of radius
targetRadiusOf radius 1 = 1.6 * orbitalRadius around the canvas center, and
one tick moves the position so that its Euclidean distance to that target
is exactly 0.9 times the previous distance: repeated ticks converge toward
the 1.6 * orbitalRadius orbit. -/
theorem C7_theorem (p : Particle) (w h rx ry θ tX tY : ℝ)
    (hrad : 0 ≤ p.radius) (hθ : θ = p.angle + p.angularSpeed)
    (htX : tX = w / 2 + Real.cos θ * targetRadiusOf p.radius 1)
    (htY : tY = h / 2 + Real.sin θ * targetRadiusOf p.radius 1) :
    jitterMagnitude 0 = 0 ∧
    targetRadiusOf p.radius 1 = 1.6 * p.radius ∧
    Real.sqrt ((tX - w / 2) ^ 2 + (tY - h / 2) ^ 2) = 1.6 * p.radius ∧
    Real.sqrt (((p.update w h 0 1 rx ry).x - tX) ^ 2
        + ((p.update w h 0 1 rx ry).y - tY) ^ 2)
      = 0.9 * Real.sqrt ((p.x - tX) ^ 2 + (p.y - tY) ^ 2) := by
  have hR : targetRadiusOf p.radius 1 = 1.6 * p.radius := by
    unfold targetRadiusOf; ring
  refine ⟨by unfold jitterMagnitude; ring, hR, ?_, ?_⟩
  · have hcirc : (tX - w / 2) ^ 2 + (tY - h / 2) ^ 2 = (1.6 * p.radius) ^ 2 := by
      rw [htX, htY, hR]
      linear_combination (1.6 * p.radius) ^ 2 * Real.sin_sq_add_cos_sq θ
    rw [hcirc, Real.sqrt_sq (by linarith)]
  · have hx9 : (p.update w h 0 1 rx ry).x - tX = 0.9 * (p.x - tX) := by
      have hx : (p.update w h 0 1 rx ry).x
          = p.x + (w / 2
              + Real.cos (p.angle + p.angularSpeed * (1 + 0 * 2))
                * (p.radius * (0.1 + 1 * 1.5)) - p.x) * 0.1
            + (rx - 0.5) * (0 * 5) := rfl
      rw [hx, htX, hθ,
        show p.angle + p.angularSpeed * (1 + 0 * 2)
          = p.angle + p.angularSpeed by ring,
        show targetRadiusOf p.radius 1 = p.radius * (0.1 + 1 * 1.5) from rfl]
      ring
    have hy9 : (p.update w h 0 1 rx ry).y - tY = 0.9 * (p.y - tY) := by
      have hy : (p.update w h 0 1 rx ry).y
          = p.y + (h / 2
              + Real.sin (p.angle + p.angularSpeed * (1 + 0 * 2))
                * (p.radius * (0.1 + 1 * 1.5)) - p.y) * 0.1
            + (ry - 0.5) * (0 * 5) := rfl
      rw [hy, htY, hθ,
        show p.angle + p.angularSpeed * (1 + 0 * 2)
          = p.angle + p.angularSpeed by ring,
        show targetRadiusOf p.radius 1 = p.radius * (0.1 + 1 * 1.5) from rfl]
      ring
    rw [hx9, hy9,
      show (0.9 * (p.x - tX)) ^ 2 + (0.9 * (p.y - tY)) ^ 2
        = 0.9 ^ 2 * ((p.x - tX) ^ 2 + (p.y - tY) ^ 2) by ring,
      Real.sqrt_mul (by norm_num : (0:ℝ) ≤ 0.9 ^ 2),
      Real.sqrt_sq (by norm_num : (0:ℝ) ≤ 0.9)]

/-- Witness for C7: a particle at (3,4) with angle 0, angularSpeed 0 and
radius 1 on a 2 by 2 canvas. -/
theorem C7_witness :
    jitterMagnitude 0 = 0 ∧
    targetRadiusOf 1 1 = 1.6 * 1 ∧
    Real.sqrt ((2 / 2 + Real.cos 0 * targetRadiusOf 1 1 - 2 / 2) ^ 2
        + (2 / 2 + Real.sin 0 * targetRadiusOf 1 1 - 2 / 2) ^ 2) = 1.6 * 1 ∧
    Real.sqrt
        (((Particle.update ⟨3, 4, 0, 0, 0, 1, "", 0, 1, 0⟩ 2 2 0 1 0.5 0.5).x
            - (2 / 2 + Real.cos 0 * targetRadiusOf 1 1)) ^ 2
          + ((Particle.update ⟨3, 4, 0, 0, 0, 1, "", 0, 1, 0⟩ 2 2 0 1 0.5 0.5).y
            - (2 / 2 + Real.sin 0 * targetRadiusOf 1 1)) ^ 2)
      = 0.9 * Real.sqrt ((3 - (2 / 2 + Real.cos 0 * targetRadiusOf 1 1)) ^ 2
          + (4 - (2 / 2 + Real.sin 0 * targetRadiusOf 1 1)) ^ 2) :=
  C7_theorem ⟨3, 4, 0, 0, 0, 1, "", 0, 1, 0⟩ 2 2 0.5 0.5 0
    (2 / 2 + Real.cos 0 * targetRadiusOf 1 1)
    (2 / 2 + Real.sin 0 * targetRadiusOf 1 1)
    (by show (0:ℝ) ≤ 1; norm_num) (by show (0:ℝ) = 0 + 0; norm_num) rfl rfl
